import Mathlib

/-!
# Verification of the Tradegram decision engine

Shallow embedding of the decision-engine core of the Tradegram repository:
`ai_model/trade_analysis.py` (indicator calculator, pattern detector, trend
classifier, signal scorer), `agent/agent.py` (state encoder, sentiment
aggregation, rule-based fallback), and `ai_model/reinforcement.py`
(DQN forward pass, epsilon-greedy action selection, training-step framing).

Python floats are modelled as rationals (`ℚ`).  Where IEEE-754 special
values matter (the RSI computation, whose pandas pipeline can silently
produce NaN), the value space is the explicit sum type `EFloat` with `nan`
and `inf` constructors; every other computation in the covered code keeps
well clear of NaN/Inf and is modelled over plain `ℚ`.  Python dictionaries
accessed with `.get` are modelled either as structures of `Option` fields
(when the set of keys a function reads is fixed) or as association lists
over the dynamic value type `PyVal` (when the presence/absence of keys is
itself the property under study).  All definitions are executable.
-/

namespace Tradegram

/-- `TradingSignal` enum from `agent/models.py`: BUY = "buy", SELL = "sell",
HOLD = "hold". -/
inductive TradingSignal where
  | buy
  | sell
  | hold
deriving DecidableEq, Repr

/-! ## Indicator calculator (`ai_model/trade_analysis.py`)

`_calculate_rsi` runs a pandas pipeline whose float semantics we make
explicit.  `EFloat` is a float that is either NaN, +Inf, or an ordinary
(rational) value; the covered computation never produces -Inf. -/

/-- A double that is NaN, +Inf, or a finite value (modelled as a rational). -/
inductive EFloat where
  | nan
  | inf
  | val (q : ℚ)
deriving DecidableEq, Repr

/-- `df['price'].diff()` without its leading NaN entry:
`diffs prices` lists `prices[i+1] - prices[i]`. -/
def diffs (prices : List ℚ) : List ℚ :=
  List.zipWith (fun b a => b - a) (prices.drop 1) prices

/-- Mean of the last 14 entries of a list (the final cell of
`series.rolling(window=14).mean()`); only meaningful when the list has at
least 14 entries. -/
def last14mean (xs : List ℚ) : ℚ :=
  ((xs.drop (xs.length - 14)).sum) / 14

/-- `TradeAnalyzer._calculate_rsi` (trade_analysis.py lines 91-108) on a
price series, with the pandas float semantics spelled out:

* empty series: `rsi.iloc[-1]` raises `IndexError`, the `except` branch
  returns `50.0`;
* fewer than 14 prices: the gain/loss series (the leading NaN delta is
  replaced by `0` via `delta.where(delta > 0, 0)`, so the series has one
  entry per price) is shorter than the rolling window, the rolling mean is
  NaN, and NaN propagates through `rs` and `rsi` — the function returns NaN
  without raising;
* otherwise, with `g`/`l` the rolling means of gains and losses over the
  last 14 entries: `l > 0` gives the ordinary `100 - 100/(1 + g/l)`;
  `l = 0, g > 0` gives `rs = +inf` and `rsi = 100 - 100/inf = 100`;
  `l = 0, g = 0` gives `rs = 0/0 = NaN` and `rsi = NaN`. -/
def calculate_rsi (prices : List ℚ) : EFloat :=
  if prices.isEmpty then .val 50
  else if prices.length < 14 then .nan
  else
    let delta := diffs prices
    let gain := 0 :: delta.map (fun d => if d > 0 then d else 0)
    let loss := 0 :: delta.map (fun d => if d < 0 then -d else 0)
    let g := last14mean gain
    let l := last14mean loss
    if l = 0 then (if g = 0 then .nan else .val 100)
    else .val (100 - 100 / (1 + g / l))

/-- The MACD record returned by `_calculate_macd`
(fields `'macd'`, `'signal'`, `'hist'`). -/
structure MacdRec where
  macd : ℚ
  sig : ℚ
  hist : ℚ
deriving DecidableEq, Repr

/-- The Bollinger-band record returned by `_calculate_bollinger_bands`
(fields `'upper'`, `'middle'`, `'lower'`). -/
structure BBRec where
  upper : ℚ
  middle : ℚ
  lower : ℚ
deriving DecidableEq, Repr

/-! ## Pattern detector, trend classifier, signal scorer -/

/-- `TradeAnalyzer._detect_patterns` (lines 155-183) on finite indicator
values: the three `if/elif` groups append at most one tag each, in source
order (RSI group, MACD crossover group, Bollinger group). -/
def detect_patterns (price rsi : ℚ) (m : MacdRec) (bb : BBRec) : List String :=
  (if rsi < 30 then ["oversold"]
   else if rsi > 70 then ["overbought"] else [])
  ++ (if m.hist > 0 ∧ m.macd > m.sig then ["bullish_crossover"]
      else if m.hist < 0 ∧ m.macd < m.sig then ["bearish_crossover"] else [])
  ++ (if price > bb.upper then ["bb_upper_break"]
      else if price < bb.lower then ["bb_lower_break"] else [])

/-- `TradeAnalyzer._determine_trend` (lines 185-201): majority vote of the
bullish tag count against the bearish tag count. -/
def determine_trend (patterns : List String) : String :=
  let bullish_count := patterns.countP
    (fun p => p == "oversold" || p == "bullish_crossover" || p == "bb_lower_break")
  let bearish_count := patterns.countP
    (fun p => p == "overbought" || p == "bearish_crossover" || p == "bb_upper_break")
  if bullish_count > bearish_count then "up"
  else if bearish_count > bullish_count then "down"
  else "neutral"

/-- The dictionary view that `_calculate_signal_strength` and
`_calculate_confidence` take: a dict read through `.get('trend', ...)` and
`.get('patterns', ...)`, so each key is optional. -/
structure PatternsDict where
  trend : Option String
  patterns : Option (List String)

/-- The trend-confirmation test of `_calculate_signal_strength`
(lines 210-213): under trend `"up"` a `bullish_crossover`/`oversold` tag
confirms, under `"down"` a `bearish_crossover`/`overbought` tag does. -/
def confirms (trend : String) (p : String) : Bool :=
  (trend == "up" && (p == "bullish_crossover" || p == "oversold"))
  || (trend == "down" && (p == "bearish_crossover" || p == "overbought"))

/-- The trend-confirming pattern count of `_calculate_signal_strength`. -/
def confirmingCount (trend : String) (patterns : List String) : ℕ :=
  patterns.countP (confirms trend)

/-- `TradeAnalyzer._calculate_signal_strength` (lines 203-222):
`0.5 + 0.1` per confirming pattern, clamped to `[0,1]` by
`max(0.0, min(1.0, strength))`.  The missing-key defaults are
`'neutral'` and `[]`. -/
def calculate_signal_strength (pd : PatternsDict) : ℚ :=
  let trend := pd.trend.getD "neutral"
  let confirming := confirmingCount trend (pd.patterns.getD [])
  max 0 (min 1 (1/2 + (confirming : ℚ) * (1/10)))

/-- `TradeAnalyzer._determine_signal` (lines 224-230). -/
def determine_signal (strength : ℚ) : TradingSignal :=
  if strength > 7/10 then .buy
  else if strength < 3/10 then .sell
  else .hold

/-- `TradeAnalyzer._calculate_confidence` (lines 232-250):
`0.5 + 0.1` per detected pattern, `+0.2` when `patterns.get('trend')`
(no default — a missing key yields `None`) differs from `'neutral'`,
clamped to `[0,1]`. -/
def calculate_confidence (pd : PatternsDict) : ℚ :=
  let pattern_count := (pd.patterns.getD []).length
  let base := 1/2 + (pattern_count : ℚ) * (1/10)
  let conf := if pd.trend = some "neutral" then base else base + 1/5
  max 0 (min 1 conf)

/-! ## Dynamic values and dictionaries (`agent/agent.py`)

`_traditional_recommendation` and the `analyze_pattern` result dictionary
are modelled over a dynamic Python-value type, because the property under
study for those functions is which keys the dictionaries do and do not
contain. -/

/-- A dynamically typed Python value, as passed around in the agent's
dictionaries. -/
inductive PyVal where
  | num (q : ℚ)
  | str (s : String)
  | pylist (l : List PyVal)
  | pydict (d : List (String × PyVal))
  | pynone

/-- `d[k]` / `d.get(k)` on a Python dict modelled as an association list:
the value at the first matching key, if any. -/
def dictGet (d : List (String × PyVal)) (k : String) : Option PyVal :=
  (d.find? (fun kv => kv.fst == k)).map (fun kv => kv.snd)

/-- `pattern_analysis.get("rsi", 50)` as read by
`_traditional_recommendation` (agent.py line 194): a missing key yields the
default `50`, a numeric value yields that number, and a non-numeric value
makes the subsequent `< 30` comparison raise (`none`). -/
def tradRsi (pa : List (String × PyVal)) : Option ℚ :=
  match dictGet pa "rsi" with
  | Option.none => some 50
  | some (.num q) => some q
  | some _ => Option.none

/-- `pattern_analysis.get("macd", {}).get("value", 0)` (agent.py line 196):
a missing `"macd"` key defaults to the empty dict, whose `"value"` lookup
defaults to `0`; a non-dict `"macd"` value has no `.get` and raises
(`none`), as does a non-numeric `"value"` entry under the comparison. -/
def tradMacdValue (pa : List (String × PyVal)) : Option ℚ :=
  match dictGet pa "macd" with
  | Option.none => some 0
  | some (.pydict d) =>
      match dictGet d "value" with
      | Option.none => some 0
      | some (.num q) => some q
      | some _ => Option.none
  | some _ => Option.none

/-- `TradingAgent._traditional_recommendation` (agent.py lines 188-205),
given the sentiment label and confidence already extracted from the
sentiment dict (`.get("sentiment", "neutral")`, `.get("confidence", 0.0)`).
`none` models an exception escaping the function (it has no `try`);
the branch structure and evaluation order follow the source: the
positive branch reads RSI first and only consults MACD when RSI fails
the `< 30` test, and symmetrically for the negative branch. -/
def traditional_recommendation (pa : List (String × PyVal))
    (sentiment : String) (confidence : ℚ) : Option TradingSignal :=
  if confidence > 3/4 ∧ sentiment = "positive" then
    match tradRsi pa with
    | Option.none => Option.none
    | some r =>
      if r < 30 then some .buy
      else match tradMacdValue pa with
        | Option.none => Option.none
        | some m => if m > 0 then some .buy else some .hold
  else if confidence > 3/4 ∧ sentiment = "negative" then
    match tradRsi pa with
    | Option.none => Option.none
    | some r =>
      if r > 70 then some .sell
      else match tradMacdValue pa with
        | Option.none => Option.none
        | some m => if m < 0 then some .sell else some .hold
  else some .hold

/-- The dictionary literal returned by `TradeAnalyzer.analyze_pattern`
(trade_analysis.py lines 42-50).  The component values are parameters:
every claim about this dictionary concerns only its (fixed) key structure,
which holds for arbitrary component values. -/
def analyze_pattern_result (price change_24h volume indicators patterns
    signals trend : PyVal) : List (String × PyVal) :=
  [("price", price),
   ("change_24h", change_24h),
   ("volume", volume),
   ("indicators", indicators),
   ("patterns", patterns),
   ("signals", signals),
   ("trend", trend)]

/-- The dictionary literal returned by `TradeAnalyzer._calculate_macd`
(trade_analysis.py lines 124-128): its fields are `'macd'`, `'signal'`,
`'hist'` — there is no `'value'` field. -/
def macd_record (macdLine sigLine hist : ℚ) : List (String × PyVal) :=
  [("macd", .num macdLine), ("signal", .num sigLine), ("hist", .num hist)]

/-! ## State encoder (`TradingAgent._prepare_state`, agent.py 119-159) -/

/-- The fields `_prepare_state` reads from the pattern-analysis dict, each
through `.get` with a default, so each is optional.  `macd_value` stands
for `pattern_analysis.get("macd", {}).get("value", 0.0)`. -/
structure PatternAnalysisIn where
  rsi : Option ℚ
  macd_value : Option ℚ
  volume : Option ℚ
  change_24h : Option ℚ
  trend : Option String
  volatility : Option ℚ
  volume_change : Option ℚ

/-- The fields `_prepare_state` and the aggregation read from a sentiment
dict.  A sentiment given as a `SentimentType` enum contributes its `.value`
string, so both branches of the source's isinstance dispatch are the
corresponding lowercase string here. -/
structure SentimentIn where
  sentiment : Option String
  confidence : Option ℚ
  sources : Option (List String)

/-- `trend_map.get(trend, 0.0)` with
`trend_map = {"up": 1.0, "down": -1.0, "neutral": 0.0}`. -/
def trendToNum (t : String) : ℚ :=
  if t = "up" then 1 else if t = "down" then -1 else 0

/-- `sentiment_map.get(sentiment, 0.0)`; the duplicate enum-value keys of
the source dict collapse onto the same three strings. -/
def sentimentToNum (s : String) : ℚ :=
  if s = "positive" then 1 else if s = "negative" then -1 else 0

/-- Python's `str.lower()` on the (ASCII) sentiment labels: character-wise
lowercasing. -/
def pyLower (s : String) : String := String.mk (s.data.map Char.toLower)

/-- `TradingAgent._prepare_state` (agent.py lines 119-159): the 10-slot
state vector.  A missing sentiment defaults to `SentimentType.NEUTRAL`,
whose `.value` is `"neutral"`; string sentiments are lowercased before the
map lookup. -/
def prepare_state (pa : PatternAnalysisIn) (sr : SentimentIn) : List ℚ :=
  [ (pa.rsi.getD 50) / 100,
    pa.macd_value.getD 0,
    (pa.volume.getD 0) / 1000000,
    (pa.change_24h.getD 0) / 100,
    trendToNum (pa.trend.getD "neutral"),
    sentimentToNum (pyLower (sr.sentiment.getD "neutral")),
    sr.confidence.getD 0,
    pa.volatility.getD 0,
    (pa.volume_change.getD 0) / 100,
    ((sr.sources.getD []).length : ℚ) / 10 ]

/-! ## Sentiment aggregation (agent.py lines 33-42 and 74-79) -/

/-- Python's `max` over a non-empty iterator of strings: start from the
first element, replace the running value whenever a strictly greater one
appears (so ties keep the earlier element).  String comparison is
lexicographic, as in Python. -/
def pyMaxStr (hd : String) (tl : List String) : String :=
  tl.foldl (fun a b => if a < b then b else a) hd

/-- The aggregation both `analyze_sentiment` and `analyze_market` apply to
a non-empty list of sentiment results (modelled as `r :: rest`):
`max` of the sentiment labels, arithmetic mean of the confidences, and
`list(set(...))` of the concatenated source lists (deduplicated; Python's
set iteration order is unspecified, membership is what is defined). -/
def aggregate_sentiment (r : SentimentIn) (rest : List SentimentIn) :
    String × ℚ × List String :=
  ( pyMaxStr (r.sentiment.getD "neutral")
      (rest.map (fun s => s.sentiment.getD "neutral")),
    (((r :: rest).map (fun s => s.confidence.getD 0)).sum) /
      (((r :: rest).length : ℚ)),
    ((r :: rest).flatMap (fun s => s.sources.getD [])).dedup )

/-! ## Reinforcement policy (`ai_model/reinforcement.py`) -/

/-- `torch.relu`. -/
def relu (x : ℚ) : ℚ := max 0 x

/-- Dot product of a weight row with the input vector. -/
def dot (w x : List ℚ) : ℚ := (List.zipWith (· * ·) w x).sum

/-- An `nn.Linear` layer: one weight row and one bias per output
feature. -/
structure LinearLayer where
  weight : List (List ℚ)
  bias : List ℚ

/-- Forward pass of an `nn.Linear` layer. -/
def LinearLayer.forward (L : LinearLayer) (x : List ℚ) : List ℚ :=
  List.zipWith (fun w b => dot w x + b) L.weight L.bias

/-- `DQNNetwork` (reinforcement.py lines 12-22): three linear layers.  In
the source the layer sizes are 10 → 128 → 64 → 3; here the weights are
parameters and the construction constraint that matters (`fc3` has 3
output features, one per action) appears as a hypothesis where needed. -/
structure DQNNetwork where
  fc1 : LinearLayer
  fc2 : LinearLayer
  fc3 : LinearLayer

/-- `DQNNetwork.forward`: `fc3(relu(fc2(relu(fc1(x)))))`. -/
def DQNNetwork.forward (n : DQNNetwork) (x : List ℚ) : List ℚ :=
  n.fc3.forward (((n.fc2.forward ((n.fc1.forward x).map relu)).map relu))

/-- Tail of `torch.argmax` over a flat tensor: `i` is the index of the
next element, `best`/`bestv` the index and value of the maximum seen so
far; a strictly greater element replaces the running maximum, so the first
maximal index wins. -/
def argmaxAux : List ℚ → ℕ → ℕ → ℚ → ℕ
  | [], _, best, _ => best
  | x :: xs, i, best, bestv =>
      if x > bestv then argmaxAux xs (i + 1) i x
      else argmaxAux xs (i + 1) best bestv

/-- `torch.argmax` over the (flattened) q-value tensor: index of the first
maximal element; `0` on the empty list (which the source never produces —
`fc3` always has outputs). -/
def argmaxIdx : List ℚ → ℕ
  | [] => 0
  | x :: xs => argmaxAux xs 1 0 x

/-- `ReinforcementLearner.predict_action` (reinforcement.py lines
94-107).  The two draws of the source — `random.random()` and
`random.randrange(self.action_size)` — enter as the parameters `r` and
`randChoice`; the tensor round-trip and network forward pass are the only
fallible operations, so an internal failure there is modelled by passing
`none` as `forwardResult`, for which the `except` branch returns the
default action `2` (HOLD).  The function is total: no exception escapes. -/
def predict_action (epsilon r : ℚ) (randChoice : Fin 3)
    (forwardResult : Option (List ℚ)) : ℕ :=
  if r < epsilon then randChoice.val
  else
    match forwardResult with
    | some qs => argmaxIdx qs
    | Option.none => 2

/-! ## Training step (`ReinforcementLearner.train`, reinforcement.py 49-92)

The state of a `ReinforcementLearner` that `train` can mutate.  The
parameter spaces of the networks and the optimizer are abstract types, and
the gradient-descent update (batch tensors, MSE loss, backward, `step()`)
is an abstract function `step`: its numeric content is torch-internal, and
the claims under study concern when it runs, not what it computes. -/

/-- An experience tuple `(state, action, reward, next_state)`. -/
structure Experience where
  state : List ℚ
  action : ℤ
  reward : ℚ
  next_state : List ℚ

/-- The mutable state of `ReinforcementLearner`: replay memory, policy
and target network parameters, optimizer state, epsilon. -/
structure RLState (P O : Type) where
  memory : List Experience
  policy : P
  target : P
  optimizer : O
  epsilon : ℚ

/-- A fresh `ReinforcementLearner.__init__` state: empty
`deque(maxlen=10000)` replay memory and `epsilon = 1.0`; initial network
parameters and optimizer state are whatever torch initialisation
produced. -/
def initRL {P O : Type} (p t : P) (o : O) : RLState P O :=
  { memory := [], policy := p, target := t, optimizer := o, epsilon := 1 }

/-- `deque(maxlen=cap).append`: push on the right, evict from the left on
overflow. -/
def dequeAppend (cap : ℕ) (m : List Experience) (e : Experience) :
    List Experience :=
  let m2 := m ++ [e]
  if m2.length > cap then m2.drop (m2.length - cap) else m2

/-- `ReinforcementLearner.train` (reinforcement.py lines 49-92): append
the experience to memory; if the memory holds fewer than the batch size
(32), return with nothing else changed.  Otherwise run one gradient update
on the policy network/optimizer (`choose_batch` models
`random.sample(memory, 32)` and `step` the batched MSE update), hard-sync
the target network to the updated policy parameters
(`_update_target_network`), and decay epsilon by `0.995` with floor
`0.01`. -/
def train {P O : Type} (step : P → P → O → List Experience → P × O)
    (choose_batch : List Experience → List Experience)
    (s : RLState P O) (e : Experience) : RLState P O :=
  let mem := dequeAppend 10000 s.memory e
  if mem.length < 32 then { s with memory := mem }
  else
    let batch := choose_batch mem
    let upd := step s.policy s.target s.optimizer batch
    { memory := mem, policy := upd.fst, target := upd.fst,
      optimizer := upd.snd,
      epsilon := max (1/100) (s.epsilon * (995/1000)) }

/-! ## Helper lemmas -/

/-- Clamping with `max(0, min(1, x))` is the identity on `[0,1]`. -/
theorem clamp_id {x : ℚ} (h0 : 0 ≤ x) (h1 : x ≤ 1) :
    max 0 (min 1 x) = x := by
  rw [min_eq_right h1, max_eq_right h0]

/-- `max(0, min(1, x))` always lands in `[0,1]`. -/
theorem clamp_mem {x : ℚ} :
    0 ≤ max 0 (min 1 x) ∧ max 0 (min 1 x) ≤ 1 :=
  ⟨le_max_left 0 _, max_le (by norm_num) (min_le_left 1 x)⟩

/-- On any output of `_detect_patterns`, at most two patterns confirm any
trend: the RSI group and the MACD group contribute at most one tag each,
and the Bollinger tags are in no confirming set. -/
theorem confirming_detect_le_two (trend : String) (price rsi : ℚ)
    (m : MacdRec) (bb : BBRec) :
    confirmingCount trend (detect_patterns price rsi m bb) ≤ 2 := by
  unfold confirmingCount detect_patterns
  rw [List.countP_append, List.countP_append]
  have h1 : List.countP (confirms trend)
      (if rsi < 30 then ["oversold"]
       else if rsi > 70 then ["overbought"] else []) ≤ 1 :=
    le_trans (List.countP_le_length _) (by split_ifs <;> simp)
  have h2 : List.countP (confirms trend)
      (if m.hist > 0 ∧ m.macd > m.sig then ["bullish_crossover"]
       else if m.hist < 0 ∧ m.macd < m.sig then ["bearish_crossover"]
       else []) ≤ 1 :=
    le_trans (List.countP_le_length _) (by split_ifs <;> simp)
  have e1 : confirms trend "bb_upper_break" = false := by
    unfold confirms
    rw [show ("bb_upper_break" == "bullish_crossover") = false from rfl,
        show ("bb_upper_break" == "oversold") = false from rfl,
        show ("bb_upper_break" == "bearish_crossover") = false from rfl,
        show ("bb_upper_break" == "overbought") = false from rfl]
    simp
  have e2 : confirms trend "bb_lower_break" = false := by
    unfold confirms
    rw [show ("bb_lower_break" == "bullish_crossover") = false from rfl,
        show ("bb_lower_break" == "oversold") = false from rfl,
        show ("bb_lower_break" == "bearish_crossover") = false from rfl,
        show ("bb_lower_break" == "overbought") = false from rfl]
    simp
  have h3 : List.countP (confirms trend)
      (if price > bb.upper then ["bb_upper_break"]
       else if price < bb.lower then ["bb_lower_break"] else []) = 0 := by
    split_ifs <;> simp [List.countP_cons, e1, e2]
  omega

/-- `argmaxIdx` on a three-element list lands in `{0,1,2}` and points at a
maximal element. -/
theorem argmaxIdx_three (x y z : ℚ) :
    argmaxIdx [x, y, z] < 3 ∧
    ∀ q ∈ [x, y, z], q ≤ [x, y, z].getD (argmaxIdx [x, y, z]) 0 := by
  have e : argmaxIdx [x, y, z] =
      if y > x then (if z > y then 2 else 1) else (if z > x then 2 else 0) := by
    simp only [argmaxIdx, argmaxAux]
  rw [e]
  split_ifs with h1 h2 h3 <;>
    refine ⟨by norm_num, ?_⟩ <;>
    · intro q hq
      simp only [List.mem_cons, List.not_mem_nil, or_false] at hq
      simp only [List.getD_cons_zero, List.getD_cons_succ]
      rcases hq with rfl | rfl | rfl <;> linarith

/-- While the appended memory still holds fewer than 32 experiences,
`train` only appends: networks, optimizer and epsilon are untouched. -/
theorem train_small {P O : Type} (step : P → P → O → List Experience → P × O)
    (choose : List Experience → List Experience)
    (s : RLState P O) (e : Experience) (h : s.memory.length + 1 < 32) :
    train step choose s e = { s with memory := s.memory ++ [e] } := by
  unfold train dequeAppend
  dsimp only
  have hA : ¬ (s.memory ++ [e]).length > 10000 := by
    simp only [List.length_append, List.length_singleton]
    omega
  rw [if_neg hA]
  have hB : (s.memory ++ [e]).length < 32 := by
    simp only [List.length_append, List.length_singleton]
    omega
  rw [if_pos hB]

/-- Folding `train` over fewer experiences than fit below the batch size
just appends them all to the replay memory. -/
theorem foldl_train_small {P O : Type}
    (step : P → P → O → List Experience → P × O)
    (choose : List Experience → List Experience)
    (es : List Experience) :
    ∀ s : RLState P O, s.memory.length + es.length < 32 →
      es.foldl (train step choose) s = { s with memory := s.memory ++ es } := by
  induction es with
  | nil =>
      intro s h
      simp
  | cons e rest ih =>
      intro s h
      rw [List.foldl_cons, train_small step choose s e (by simp at h; omega)]
      rw [ih _ (by simp at h ⊢; omega)]
      simp

/-- Python's `max` over a non-empty string list: the fold result is one of
the elements and bounds them all. -/
theorem pyMaxStr_all (tl : List String) :
    ∀ hd : String,
      (pyMaxStr hd tl = hd ∨ pyMaxStr hd tl ∈ tl) ∧
      hd ≤ pyMaxStr hd tl ∧ ∀ x ∈ tl, x ≤ pyMaxStr hd tl := by
  induction tl with
  | nil =>
      intro hd
      simp [pyMaxStr]
  | cons b tl ih =>
      intro hd
      have hstep : pyMaxStr hd (b :: tl) = pyMaxStr (if hd < b then b else hd) tl := rfl
      obtain ⟨hmem, hle, hall⟩ := ih (if hd < b then b else hd)
      rw [hstep]
      refine ⟨?_, ?_, ?_⟩
      · rcases hmem with h | h
        · rw [h]
          split_ifs with hb
          · right
            exact List.mem_cons_self b tl
          · left
            rfl
        · right
          exact List.mem_cons_of_mem b h
      · refine le_trans ?_ hle
        split_ifs with hb
        · exact le_of_lt hb
        · exact le_refl hd
      · intro x hx
        rcases List.mem_cons.mp hx with rfl | hx
        · refine le_trans ?_ hle
          split_ifs with hb
          · exact le_refl x
          · exact le_of_not_lt hb
        · exact hall x hx

/-! ## Claim theorems -/

/-- Claim C1 (refuted — code bug): the RSI computation is claimed to stay
in `[0,100]`, to return the neutral `50.0` whenever history is
insufficient for the 14-period window or the mean loss is zero, and never
to hand NaN/Inf downstream.  The embedded pandas pipeline instead returns
NaN on a constant 14-price series (mean loss is zero and mean gain is
zero, so `rs = 0/0 = NaN` propagates without raising, and the
`except`-branch default of `50.0` never fires) and likewise returns NaN on
any non-empty series shorter than the rolling window. -/
theorem rsi_nan_on_flat_and_short_series :
    calculate_rsi (List.replicate 14 100) = EFloat.nan ∧
    calculate_rsi [1, 2, 3] = EFloat.nan := by
  constructor
  · norm_num [calculate_rsi, diffs, last14mean, List.replicate]
  · norm_num [calculate_rsi]

/-- Claim C6: `_determine_trend` returns `"up"` exactly when the bullish
tag count strictly exceeds the bearish tag count, `"down"` exactly when
the bearish count strictly exceeds the bullish count, and `"neutral"` on
ties — in particular on the empty list. -/
theorem determine_trend_majority_vote (patterns : List String) :
    (determine_trend patterns = "up" ↔
      patterns.countP (fun p => p == "oversold" || p == "bullish_crossover"
        || p == "bb_lower_break") >
      patterns.countP (fun p => p == "overbought" || p == "bearish_crossover"
        || p == "bb_upper_break")) ∧
    (determine_trend patterns = "down" ↔
      patterns.countP (fun p => p == "overbought" || p == "bearish_crossover"
        || p == "bb_upper_break") >
      patterns.countP (fun p => p == "oversold" || p == "bullish_crossover"
        || p == "bb_lower_break")) ∧
    (determine_trend patterns = "neutral" ↔
      patterns.countP (fun p => p == "oversold" || p == "bullish_crossover"
        || p == "bb_lower_break") =
      patterns.countP (fun p => p == "overbought" || p == "bearish_crossover"
        || p == "bb_upper_break")) ∧
    determine_trend [] = "neutral" := by
  have hud : ("up" : String) ≠ "down" := by decide
  have hun : ("up" : String) ≠ "neutral" := by decide
  have hdn : ("down" : String) ≠ "neutral" := by decide
  unfold determine_trend
  refine ⟨?_, ?_, ?_, by decide⟩ <;>
  · dsimp only
    split_ifs with h1 h2 <;> simp_all <;> omega

/-- Claim C7: `_prepare_state` always returns a vector of exactly 10
entries (and, being total, never raises on missing data); every absent
field takes its neutral default, so the all-absent input yields exactly
`[0.5, 0, 0, 0, 0, 0, 0, 0, 0, 0]`. -/
theorem prepare_state_ten_slots_and_defaults :
    (∀ (pa : PatternAnalysisIn) (sr : SentimentIn),
      (prepare_state pa sr).length = 10) ∧
    prepare_state
      ⟨Option.none, Option.none, Option.none, Option.none, Option.none,
        Option.none, Option.none⟩
      ⟨Option.none, Option.none, Option.none⟩ =
      [1/2, 0, 0, 0, 0, 0, 0, 0, 0, 0] := by
  refine ⟨fun _ _ => rfl, ?_⟩
  norm_num [prepare_state, trendToNum, sentimentToNum]
  decide

/-- Claim C2: for every sentiment label, confidence, and pattern-analysis
bundle (whose `rsi` and nested `macd.value` entries read as numbers or are
absent, taking defaults 50 and 0), `_traditional_recommendation` returns
BUY exactly when confidence > 0.75, sentiment is positive, and (RSI < 30
or MACD value > 0); SELL exactly when confidence > 0.75, sentiment is
negative, and (RSI > 70 or MACD value < 0); HOLD in every other case; and
it always produces a signal. -/
theorem traditional_recommendation_cases (pa : List (String × PyVal))
    (sentiment : String) (confidence rv mv : ℚ)
    (hr : tradRsi pa = some rv) (hm : tradMacdValue pa = some mv) :
    (traditional_recommendation pa sentiment confidence =
        some TradingSignal.buy ↔
      confidence > 3/4 ∧ sentiment = "positive" ∧ (rv < 30 ∨ mv > 0)) ∧
    (traditional_recommendation pa sentiment confidence =
        some TradingSignal.sell ↔
      confidence > 3/4 ∧ sentiment = "negative" ∧ (rv > 70 ∨ mv < 0)) ∧
    (traditional_recommendation pa sentiment confidence =
        some TradingSignal.hold ↔
      ¬(confidence > 3/4 ∧ sentiment = "positive" ∧ (rv < 30 ∨ mv > 0)) ∧
      ¬(confidence > 3/4 ∧ sentiment = "negative" ∧ (rv > 70 ∨ mv < 0))) ∧
    (traditional_recommendation pa sentiment confidence).isSome := by
  have hpn : ("positive" : String) ≠ "negative" := by decide
  unfold traditional_recommendation
  rw [hr, hm]
  dsimp only
  split_ifs <;> simp_all

/-- Witness for claim C2 at a concrete input: the empty bundle (defaults
RSI = 50, MACD value = 0) with positive sentiment at confidence 0.9 yields
HOLD, matching the case analysis. -/
theorem traditional_recommendation_cases_witness :
    traditional_recommendation [] "positive" (9/10) =
      some TradingSignal.hold :=
  ((traditional_recommendation_cases [] "positive" (9/10) 50 0 rfl
    rfl).2.2.1).mpr (by norm_num)

/-- Claim C10: the dictionary `analyze_pattern` returns never contains
top-level `"rsi"` or `"macd"` keys (whatever the component values are),
the MACD record nested under `"indicators"` has fields
`'macd'`/`'signal'`/`'hist'` and no `'value'` field, and consequently
`_traditional_recommendation` on such a bundle reads the defaults
RSI = 50 and MACD value = 0 and returns HOLD for every sentiment label and
confidence. -/
theorem analyze_pattern_bundle_forces_hold
    (price change_24h volume indicators patterns signals trend : PyVal)
    (macdLine sigLine hist : ℚ) (sentiment : String) (confidence : ℚ) :
    dictGet (analyze_pattern_result price change_24h volume indicators
      patterns signals trend) "rsi" = Option.none ∧
    dictGet (analyze_pattern_result price change_24h volume indicators
      patterns signals trend) "macd" = Option.none ∧
    dictGet (macd_record macdLine sigLine hist) "value" = Option.none ∧
    traditional_recommendation (analyze_pattern_result price change_24h
      volume indicators patterns signals trend) sentiment confidence =
      some TradingSignal.hold := by
  refine ⟨rfl, rfl, rfl, ?_⟩
  have hr : tradRsi (analyze_pattern_result price change_24h volume
      indicators patterns signals trend) = some 50 := rfl
  have hm : tradMacdValue (analyze_pattern_result price change_24h volume
      indicators patterns signals trend) = some 0 := rfl
  unfold traditional_recommendation
  rw [hr, hm]
  dsimp only
  split_ifs <;> first | rfl | norm_num at *

/-- Claim C5: on every pattern-analysis bundle the signal strength and the
confidence lie in `[0,1]` (for arbitrary pattern counts), and for a bundle
carrying a trend label `t` the strength equals
`clamp(0.5 + 0.1 × confirming-count, 0, 1)` — confirming patterns being
`bullish_crossover`/`oversold` under an up trend and
`bearish_crossover`/`overbought` under a down trend — while the confidence
equals `clamp(0.5 + 0.1 × pattern-count + (0.2 if t ≠ neutral else 0), 0, 1)`. -/
theorem signal_scores_formulas_and_bounds :
    (∀ pd : PatternsDict,
      0 ≤ calculate_signal_strength pd ∧ calculate_signal_strength pd ≤ 1 ∧
      0 ≤ calculate_confidence pd ∧ calculate_confidence pd ≤ 1) ∧
    (∀ (pd : PatternsDict) (t : String), pd.trend = some t →
      calculate_signal_strength pd =
        max 0 (min 1 (1/2 +
          (confirmingCount t (pd.patterns.getD []) : ℚ) * (1/10))) ∧
      calculate_confidence pd =
        max 0 (min 1 (1/2 + ((pd.patterns.getD []).length : ℚ) * (1/10) +
          (if t ≠ "neutral" then 1/5 else 0)))) := by
  constructor
  · intro pd
    exact ⟨clamp_mem.1, clamp_mem.2, clamp_mem.1, clamp_mem.2⟩
  · intro pd t ht
    constructor
    · unfold calculate_signal_strength
      rw [ht]
      rfl
    · unfold calculate_confidence
      rw [ht]
      rcases eq_or_ne t "neutral" with h | h
      · subst h
        simp
      · simp [h]

/-- Witness for claim C5 at a concrete input: the bundle with trend `"up"`
and patterns `["oversold"]` satisfies both of the claimed clamped
formulas. -/
theorem signal_scores_formulas_and_bounds_witness :
    calculate_signal_strength ⟨some "up", some ["oversold"]⟩ =
      max 0 (min 1 (1/2 + (confirmingCount "up" ["oversold"] : ℚ) * (1/10))) ∧
    calculate_confidence ⟨some "up", some ["oversold"]⟩ =
      max 0 (min 1 (1/2 + ((["oversold"] : List String).length : ℚ) * (1/10) +
        (if ("up" : String) ≠ "neutral" then 1/5 else 0))) :=
  signal_scores_formulas_and_bounds.2 ⟨some "up", some ["oversold"]⟩ "up" rfl

/-- Claim C9: on every pattern list the detector can produce (under any
trend label), the computed signal strength lies in `[0.5, 0.7]` — at most
two patterns confirm a trend — so `_determine_signal`, which needs
strength `> 0.7` for BUY and `< 0.3` for SELL, always returns HOLD as the
standalone rule-based signal. -/
theorem detector_signal_always_hold (trend : String) (price rsi : ℚ)
    (m : MacdRec) (bb : BBRec) :
    1/2 ≤ calculate_signal_strength
      ⟨some trend, some (detect_patterns price rsi m bb)⟩ ∧
    calculate_signal_strength
      ⟨some trend, some (detect_patterns price rsi m bb)⟩ ≤ 7/10 ∧
    determine_signal (calculate_signal_strength
      ⟨some trend, some (detect_patterns price rsi m bb)⟩) =
      TradingSignal.hold := by
  have hc := confirming_detect_le_two trend price rsi m bb
  have hcq : (confirmingCount trend (detect_patterns price rsi m bb) : ℚ) ≤ 2 := by
    exact_mod_cast hc
  have hc0 : (0:ℚ) ≤ (confirmingCount trend (detect_patterns price rsi m bb) : ℚ) :=
    Nat.cast_nonneg _
  have hval : calculate_signal_strength
      ⟨some trend, some (detect_patterns price rsi m bb)⟩ =
      1/2 + (confirmingCount trend (detect_patterns price rsi m bb) : ℚ) * (1/10) := by
    unfold calculate_signal_strength
    dsimp only [Option.getD]
    exact clamp_id (by linarith) (by linarith)
  rw [hval]
  refine ⟨by linarith, by linarith, ?_⟩
  unfold determine_signal
  split_ifs with hb hs
  · linarith
  · linarith
  · rfl

/-- Claim C3: `predict_action` is total — no exception reaches the caller
— and always returns an action in `{0,1,2}`: when the exploration draw
`r` falls below epsilon it returns the uniformly drawn random action;
otherwise it returns the arg-max action of the policy network evaluated on
the state (an index below 3 pointing at a maximal q-value, the network's
`fc3` layer having three output features); and when the network evaluation
fails internally (`forwardResult = none`) it returns the default action 2
(HOLD). -/
theorem predict_action_spec (epsilon r : ℚ) (rc : Fin 3)
    (net : DQNNetwork) (st : List ℚ)
    (hw : net.fc3.weight.length = 3) (hb : net.fc3.bias.length = 3) :
    predict_action epsilon r rc Option.none < 3 ∧
    predict_action epsilon r rc (some (net.forward st)) < 3 ∧
    (r < epsilon →
      predict_action epsilon r rc (some (net.forward st)) = rc.val ∧
      predict_action epsilon r rc Option.none = rc.val) ∧
    (¬ r < epsilon →
      predict_action epsilon r rc Option.none = 2 ∧
      ∀ q ∈ net.forward st,
        q ≤ (net.forward st).getD
          (predict_action epsilon r rc (some (net.forward st))) 0) := by
  obtain ⟨w0, w1, w2, hws⟩ := List.length_eq_three.mp hw
  obtain ⟨b0, b1, b2, hbs⟩ := List.length_eq_three.mp hb
  obtain ⟨a, b, c, hfwd⟩ : ∃ a b c : ℚ, net.forward st = [a, b, c] := by
    unfold DQNNetwork.forward LinearLayer.forward
    rw [hws, hbs]
    exact ⟨_, _, _, rfl⟩
  rw [hfwd]
  obtain ⟨hlt, hmax⟩ := argmaxIdx_three a b c
  by_cases hre : r < epsilon
  · have hpred : predict_action epsilon r rc (some [a, b, c]) = rc.val := by
      simp [predict_action, hre]
    have hpn : predict_action epsilon r rc Option.none = rc.val := by
      simp [predict_action, hre]
    rw [hpred, hpn]
    exact ⟨rc.isLt, rc.isLt, fun _ => ⟨rfl, rfl⟩, fun hn => absurd hre hn⟩
  · have hpred : predict_action epsilon r rc (some [a, b, c]) =
        argmaxIdx [a, b, c] := by
      simp [predict_action, hre]
    have hpn : predict_action epsilon r rc Option.none = 2 := by
      simp [predict_action, hre]
    rw [hpred, hpn]
    exact ⟨by norm_num, hlt, fun hx => absurd hx hre, fun _ => ⟨rfl, hmax⟩⟩

/-- Witness for claim C3 at a concrete input: a network whose `fc3` layer
has three rows, evaluated in the exploitation branch (`epsilon = 0`),
returns an action below 3. -/
theorem predict_action_spec_witness :
    predict_action 0 0 (2 : Fin 3)
      (some (DQNNetwork.forward
        ⟨⟨[], []⟩, ⟨[], []⟩, ⟨[[1], [2], [3]], [0, 0, 0]⟩⟩ [])) < 3 :=
  (predict_action_spec 0 0 (2 : Fin 3)
    ⟨⟨[], []⟩, ⟨[], []⟩, ⟨[[1], [2], [3]], [0, 0, 0]⟩⟩ [] rfl rfl).2.1

/-- Claim C4: starting from a fresh `ReinforcementLearner` (empty replay
memory, epsilon 1.0), any sequence of fewer than 32 `train` calls — for
any gradient-step and batch-sampling behaviour — appends each experience
to the replay memory and returns without error, leaving the policy
parameters, target parameters, optimizer state and epsilon all exactly as
initialised. -/
theorem train_under_batch_size_only_appends (P O : Type)
    (step : P → P → O → List Experience → P × O)
    (choose : List Experience → List Experience)
    (p t : P) (o : O) (es : List Experience) (h : es.length < 32) :
    es.foldl (train step choose) (initRL p t o) =
      { memory := es, policy := p, target := t, optimizer := o,
        epsilon := 1 } := by
  have hres := foldl_train_small step choose es (initRL p t o)
    (by simp [initRL]; omega)
  simpa [initRL] using hres

/-- Witness for claim C4 at a concrete input: one `train` call on a fresh
learner (with a gradient step that would visibly change the parameters if
it ran) appends the experience and changes nothing else. -/
theorem train_under_batch_size_only_appends_witness :
    (([⟨[], 0, 0, []⟩] : List Experience).length < 32) ∧
    ([(⟨[], 0, 0, []⟩ : Experience)].foldl
      (train (fun p _ o _ => (p + 1, o + 1)) (fun l => l))
      (initRL (5 : ℕ) 7 (11 : ℕ)) =
      { memory := [⟨[], 0, 0, []⟩], policy := 5, target := 7,
        optimizer := 11, epsilon := 1 }) :=
  ⟨by decide,
    train_under_batch_size_only_appends ℕ ℕ
      (fun p _ o _ => (p + 1, o + 1)) (fun l => l) 5 7 11
      [⟨[], 0, 0, []⟩] (by decide)⟩

/-- Claim C8: on every non-empty list of sentiment results the engine's
aggregation produces a sentiment label that is the lexicographically
maximal label among the results (it is one of them and bounds them all in
the lexicographic string order), a confidence that is the arithmetic mean
of their confidences, and a source list whose members are exactly the
union of the results' source lists. -/
theorem aggregate_sentiment_spec (r : SentimentIn) (rest : List SentimentIn) :
    ((aggregate_sentiment r rest).1 ∈
        (r :: rest).map (fun s => s.sentiment.getD "neutral") ∧
      ∀ l ∈ (r :: rest).map (fun s => s.sentiment.getD "neutral"),
        l ≤ (aggregate_sentiment r rest).1) ∧
    (aggregate_sentiment r rest).2.1 =
      (((r :: rest).map (fun s => s.confidence.getD 0)).sum) /
        ((r :: rest).length : ℚ) ∧
    ∀ x : String, x ∈ (aggregate_sentiment r rest).2.2 ↔
      ∃ s ∈ r :: rest, x ∈ s.sources.getD [] := by
  obtain ⟨hmem, hle, hall⟩ :=
    pyMaxStr_all (rest.map (fun s => s.sentiment.getD "neutral"))
      (r.sentiment.getD "neutral")
  have h1 : (aggregate_sentiment r rest).1 =
      pyMaxStr (r.sentiment.getD "neutral")
        (rest.map (fun s => s.sentiment.getD "neutral")) := rfl
  refine ⟨⟨?_, ?_⟩, rfl, ?_⟩
  · rw [h1, List.map_cons]
    rcases hmem with h | h
    · rw [h]
      exact List.mem_cons_self _ _
    · exact List.mem_cons_of_mem _ h
  · intro l hl
    rw [List.map_cons] at hl
    rw [h1]
    rcases List.mem_cons.mp hl with rfl | hl
    · exact hle
    · exact hall l hl
  · intro x
    show x ∈ ((r :: rest).flatMap (fun s => s.sources.getD [])).dedup ↔ _
    rw [List.mem_dedup, List.mem_flatMap]

end Tradegram
